import Mathlib

/-!
Shallow embedding of the tsc-options library (src/types.ts and the option
helpers module) and proofs of the specification claims about it.

The TypeScript tagged union `Option<T> = { type: "none" } | { type: "some";
value: T }` is embedded as Lean's `Option` (the two shapes are in exact
bijection with `Option.none` / `Option.some`).  A JavaScript function that
may throw is embedded as a Lean function into `Except e a` (`Except.error`
is a thrown exception, `Except.ok` a normal return), and an awaited promise
as its settled outcome, again an `Except` (resolved / rejected).  JavaScript
runtime values, where their truthiness matters, are embedded as the
inductive `JSValue` together with the coercion `truthy`.
-/

/-- JavaScript runtime values, as far as the library inspects them: the two
absence sentinels, booleans, (integer) numbers and strings. -/
inductive JSValue : Type where
  | vNull : JSValue
  | vUndefined : JSValue
  | vBool : Bool → JSValue
  | vNum : Int → JSValue
  | vStr : String → JSValue
deriving DecidableEq, Repr

/-- JavaScript general truthiness coercion on the embedded values:
`null`, `undefined`, `false`, `0` and `""` are falsy, everything else is
truthy. -/
def truthy : JSValue → Bool
  | JSValue.vNull => false
  | JSValue.vUndefined => false
  | JSValue.vBool b => b
  | JSValue.vNum n => decide (n ≠ 0)
  | JSValue.vStr s => decide (s ≠ "")

/-- Embedding of `OptionalCatch` (exported as `catchToOption`): run the
zero-argument function; a normal return is wrapped in `Some`, a thrown
error yields `None`. -/
def OptionalCatch {e a : Type} (fn : Unit → Except e a) : Option a :=
  match fn () with
  | Except.ok v => Option.some v
  | Except.error _ => Option.none

/-- Embedding of `optionalResolve` (exported as `resolveToOption`): the
promise argument is embedded by its settled outcome; resolution is wrapped
in `Some`, rejection yields `None`. -/
def optionalResolve {e a : Type} (promise : Except e a) : Option a :=
  match promise with
  | Except.ok v => Option.some v
  | Except.error _ => Option.none

/-- Embedding of `OptionalMap` (exported as `mapOption`): on `None` return
`None` without touching `fn`; on `Some v` return `some (fn v)`.  There is
no try/catch in the source, so an exception of `fn` propagates: the result
type is `Except e (Option b)`. -/
def OptionalMap {a b e : Type} (option : Option a) (fn : a → Except e b) :
    Except e (Option b) :=
  match option with
  | Option.none => Except.ok Option.none
  | Option.some v => (fn v).map Option.some

/-- Embedding of `toOptional`: the returned function calls `fn` on its
argument inside a guarded block; a truthy result is wrapped in `Some`, a
falsy result gives `None`, and a thrown error gives `None`. -/
def toOptional {a e : Type} (fn : a → Except e JSValue) (args : a) :
    Option JSValue :=
  match fn args with
  | Except.ok result =>
      if truthy result then Option.some result else Option.none
  | Except.error _ => Option.none

/-- The predicate wrapped by `optionalDefined` in the source:
`(arg) => arg !== undefined && arg !== null`.  It never throws and always
returns a boolean. -/
def definedCheck (arg : JSValue) : Except Unit JSValue :=
  Except.ok (JSValue.vBool
    (decide (arg ≠ JSValue.vUndefined) && decide (arg ≠ JSValue.vNull)))

/-- Embedding of `optionalDefined = toOptional((arg) => arg !== undefined
&& arg !== null)`. -/
def optionalDefined : JSValue → Option JSValue :=
  toOptional definedCheck

/-- Embedding of `unwrap`: throwing `new Error("Cannot unwrap None")` is
embedded as `Except.error` carrying the message. -/
def unwrap {a : Type} (option : Option a) : Except String a :=
  match option with
  | Option.none => Except.error "Cannot unwrap None"
  | Option.some v => Except.ok v

/-- Embedding of `unwrapOr`: total, never throws. -/
def unwrapOr {a : Type} (opt : Option a) (fallback : a) : a :=
  match opt with
  | Option.some v => v
  | Option.none => fallback

/-- Embedding of `unwrapExpect`: throwing `new Error(message)` is embedded
as `Except.error message`. -/
def unwrapExpect {a : Type} (opt : Option a) (message : String) :
    Except String a :=
  match opt with
  | Option.some v => Except.ok v
  | Option.none => Except.error message

/-- Embedding of the `Request` shape from src/types.ts: `{ url: string,
headers: Record<string, string>, method?: string, body?: string }`.  The
headers record is embedded as a partial map from keys to values. -/
structure Request : Type where
  url : String
  headers : String → Option String
  method : Option String
  body : Option String

/-- A platform HTTP response, as far as `fetchWithOption` consumes it: its
status code and the outcome of `response.json()` (which may fail to
parse). -/
structure HttpResponse (i b : Type) : Type where
  status : Nat
  json : Except i b

/-- The `response.ok` flag of the platform client: status in the success
range 200..299. -/
def respOk {i b : Type} (response : HttpResponse i b) : Bool :=
  decide (200 ≤ response.status) && decide (response.status ≤ 299)

/-- The arguments `fetchWithOption` hands to the platform `fetch` call: the
url plus an init object holding only `method` and `headers`. -/
structure FetchArgs : Type where
  url : String
  method : Option String
  headers : String → Option String

/-- The header object built by `fetchWithOption`:
`{ "Content-Type": "application/json", ...request.headers }`.  Spread
semantics: a caller-supplied binding overwrites the default. -/
def mergeHeaders (callerHeaders : String → Option String) :
    String → Option String :=
  fun k =>
    match callerHeaders k with
    | Option.some v => Option.some v
    | Option.none =>
        if k = "Content-Type" then Option.some "application/json"
        else Option.none

/-- The full argument tuple `fetchWithOption` passes to `fetch`. -/
def fetchArgs (request : Request) : FetchArgs :=
  { url := request.url
    method := request.method
    headers := mergeHeaders request.headers }

/-- Embedding of `fetchWithOption`.  The platform client is a parameter
mapping the fetch arguments to either a thrown network error
(`Except.error`) or a response.  A non-ok status makes the source throw an
internal error that its own catch turns into `None`; a json parse failure
likewise reaches the catch; a thrown client error reaches the catch; only
an ok status with a parsed body yields `Some`. -/
def fetchWithOption {e i b : Type}
    (client : FetchArgs → Except e (HttpResponse i b)) (request : Request) :
    Option b :=
  match client (fetchArgs request) with
  | Except.error _ => Option.none
  | Except.ok response =>
      if respOk response then
        match response.json with
        | Except.ok data => Option.some data
        | Except.error _ => Option.none
      else Option.none

/-- Claim C1, counterexample: the claim says `optionalDefined(0)` is
`none`, but in the code the wrapped predicate returns the boolean `true`
for the argument `0` (since `0` is neither `undefined` nor `null`), and
`true` is truthy, so `optionalDefined(0)` is `makeSome(true)`, not
`none`. -/
theorem optionalDefined_zero_counterexample :
    optionalDefined (JSValue.vNum 0) ≠ Option.none ∧
    optionalDefined (JSValue.vNum 0) = Option.some (JSValue.vBool true) := by
  constructor <;> decide

/-- Claim C1, amended: `optionalDefined` applied to `null` returns `none`,
applied to `undefined` returns `none`, applied to `0` returns
`makeSome(true)` (the predicate result `true` is truthy even though its
argument `0` is falsy), and applied to the string "x" returns
`makeSome(true)`. -/
theorem optionalDefined_amended_eval :
    optionalDefined JSValue.vNull = Option.none ∧
    optionalDefined JSValue.vUndefined = Option.none ∧
    optionalDefined (JSValue.vNum 0) = Option.some (JSValue.vBool true) ∧
    optionalDefined (JSValue.vStr "x") = Option.some (JSValue.vBool true) := by
  refine ⟨?_, ?_, ?_, ?_⟩ <;> decide

/-- Claim C2: for every client behaviour, `fetchWithOption` returns `None`
when the client throws, `None` when the response status is outside the
success range (whatever the status is, so the code is never observable to
the caller), `None` when the body fails to parse, and `Some` of the parsed
body on an ok response; the return type `Option b` is total, so no error
ever propagates to the caller. -/
theorem fetchWithOption_swallows_all_failures {e i b : Type}
    (client : FetchArgs → Except e (HttpResponse i b)) (request : Request) :
    (∀ err, client (fetchArgs request) = Except.error err →
      fetchWithOption client request = Option.none)
  ∧ (∀ r, client (fetchArgs request) = Except.ok r → respOk r = false →
      fetchWithOption client request = Option.none)
  ∧ (∀ r perr, client (fetchArgs request) = Except.ok r →
      r.json = Except.error perr →
      fetchWithOption client request = Option.none)
  ∧ (∀ r d, client (fetchArgs request) = Except.ok r → respOk r = true →
      r.json = Except.ok d →
      fetchWithOption client request = Option.some d) := by
  refine ⟨?_, ?_, ?_, ?_⟩
  · intro err h
    simp [fetchWithOption, h]
  · intro r h hok
    simp [fetchWithOption, h, hok]
  · intro r perr h hjson
    cases hok : respOk r <;> simp [fetchWithOption, h, hok, hjson]
  · intro r d h hok hjson
    simp [fetchWithOption, h, hok, hjson]

/-- A mock client used to witness C2: status 500, body irrelevant. -/
def client500 : FetchArgs → Except Unit (HttpResponse Unit Nat) :=
  fun _ => Except.ok { status := 500, json := Except.ok 0 }

/-- A mock client used to witness C2: status 200 with a parsed body. -/
def client200 : FetchArgs → Except Unit (HttpResponse Unit Nat) :=
  fun _ => Except.ok { status := 200, json := Except.ok 1 }

/-- A mock client used to witness C2: throws a network error. -/
def clientThrows : FetchArgs → Except Unit (HttpResponse Unit Nat) :=
  fun _ => Except.error ()

/-- A mock client used to witness C2: status 200 but the body fails to
parse. -/
def clientBadBody : FetchArgs → Except Unit (HttpResponse Unit Nat) :=
  fun _ => Except.ok { status := 200, json := Except.error () }

/-- A concrete request used by the C2 witness. -/
def reqPlain : Request :=
  { url := "https://example.test"
    headers := fun _ => Option.none
    method := Option.some "GET"
    body := Option.none }

/-- Claim C2 witness: the four cases of the theorem at concrete mock
clients — HTTP 500 gives `none`, a thrown network error gives `none`, a
parse failure gives `none`, and HTTP 200 with parsed body `1` gives
`some 1`. -/
theorem fetchWithOption_swallows_all_failures_witness :
    fetchWithOption client500 reqPlain = Option.none ∧
    fetchWithOption clientThrows reqPlain = Option.none ∧
    fetchWithOption clientBadBody reqPlain = Option.none ∧
    fetchWithOption client200 reqPlain = Option.some 1 :=
  ⟨(fetchWithOption_swallows_all_failures client500 reqPlain).2.1
      { status := 500, json := Except.ok 0 } rfl (by decide),
   (fetchWithOption_swallows_all_failures clientThrows reqPlain).1 () rfl,
   (fetchWithOption_swallows_all_failures clientBadBody reqPlain).2.2.1
      { status := 200, json := Except.error () } () rfl rfl,
   (fetchWithOption_swallows_all_failures client200 reqPlain).2.2.2
      { status := 200, json := Except.ok 1 } 1 rfl (by decide) rfl⟩

/-- Claim C3: the headers `fetchWithOption` passes to the platform client
are the merge of the default `Content-Type: application/json` with the
caller-supplied headers: every caller-supplied binding survives unchanged
(so on a collision at the `Content-Type` key the caller value wins), the
default fills in `Content-Type` when the caller did not set it, and no
other key appears. -/
theorem fetchWithOption_headers_merge (request : Request) :
    (∀ k v, request.headers k = Option.some v →
      (fetchArgs request).headers k = Option.some v)
  ∧ (request.headers "Content-Type" = Option.none →
      (fetchArgs request).headers "Content-Type" =
        Option.some "application/json")
  ∧ (∀ k, k ≠ "Content-Type" → request.headers k = Option.none →
      (fetchArgs request).headers k = Option.none) := by
  refine ⟨?_, ?_, ?_⟩
  · intro k v h
    simp [fetchArgs, mergeHeaders, h]
  · intro h
    simp [fetchArgs, mergeHeaders, h]
  · intro k hk h
    simp [fetchArgs, mergeHeaders, h, hk]

/-- A concrete request whose caller headers collide on `Content-Type`,
used by the C3 witness. -/
def reqCollide : Request :=
  { url := "https://example.test"
    headers := fun k =>
      if k = "Content-Type" then Option.some "text/plain" else Option.none
    method := Option.none
    body := Option.none }

/-- Claim C3 witness: at a concrete request whose caller headers set
`Content-Type: text/plain`, the merged headers keep the caller value (last
write wins) and leave an unrelated key absent; at a concrete request with
no caller headers the default `application/json` appears. -/
theorem fetchWithOption_headers_merge_witness :
    (fetchArgs reqCollide).headers "Content-Type" =
      Option.some "text/plain" ∧
    (fetchArgs reqCollide).headers "X-Other" = Option.none ∧
    (fetchArgs reqPlain).headers "Content-Type" =
      Option.some "application/json" :=
  ⟨(fetchWithOption_headers_merge reqCollide).1 "Content-Type" "text/plain"
      (by decide),
   (fetchWithOption_headers_merge reqCollide).2.2 "X-Other" (by decide)
      (by decide),
   (fetchWithOption_headers_merge reqPlain).2.1 rfl⟩

/-- Claim C4: `fetchWithOption` never forwards the request body: the
arguments handed to the platform client consist only of the url, the
method and the merged headers, so two requests that differ only in `body`
produce the identical client call and the identical result. -/
theorem fetchWithOption_ignores_body {e i b : Type}
    (client : FetchArgs → Except e (HttpResponse i b)) (r1 r2 : Request)
    (hurl : r1.url = r2.url) (hheaders : r1.headers = r2.headers)
    (hmethod : r1.method = r2.method) :
    fetchArgs r1 = fetchArgs r2 ∧
    fetchWithOption client r1 = fetchWithOption client r2 := by
  have hargs : fetchArgs r1 = fetchArgs r2 := by
    simp [fetchArgs, hurl, hheaders, hmethod]
  exact ⟨hargs, by simp [fetchWithOption, hargs]⟩

/-- A request with a body, used by the C4 witness. -/
def reqWithBody : Request :=
  { url := "https://example.test"
    headers := fun _ => Option.none
    method := Option.some "GET"
    body := Option.some "payload" }

/-- Claim C4 witness: `reqWithBody` differs from `reqPlain` only in its
`body` field, yet the client call and the result are identical. -/
theorem fetchWithOption_ignores_body_witness :
    reqWithBody.body ≠ reqPlain.body ∧
    fetchArgs reqWithBody = fetchArgs reqPlain ∧
    fetchWithOption client200 reqWithBody = fetchWithOption client200 reqPlain :=
  ⟨by decide,
   (fetchWithOption_ignores_body client200 reqWithBody reqPlain rfl rfl rfl).1,
   (fetchWithOption_ignores_body client200 reqWithBody reqPlain rfl rfl rfl).2⟩

/-- Claim C5: for every function `fn` and argument `x`, `toOptional fn x`
is `makeSome (fn x)` when `fn x` returns a truthy value, and is `none`
both when `fn x` returns a falsy value and when `fn` throws — the two
failure-like cases collapse to the same `None`. -/
theorem toOptional_truthy_falsy_throw {a e : Type}
    (fn : a → Except e JSValue) (x : a) :
    (∀ v, fn x = Except.ok v → truthy v = true →
      toOptional fn x = Option.some v)
  ∧ (∀ v, fn x = Except.ok v → truthy v = false →
      toOptional fn x = Option.none)
  ∧ (∀ err, fn x = Except.error err → toOptional fn x = Option.none) := by
  refine ⟨?_, ?_, ?_⟩
  · intro v h ht
    simp [toOptional, h, ht]
  · intro v h ht
    simp [toOptional, h, ht]
  · intro err h
    simp [toOptional, h]

/-- A function returning its (truthy) numeric argument, for the C5
witness. -/
def fnEcho : Int → Except Unit JSValue :=
  fun n => Except.ok (JSValue.vNum n)

/-- A function returning the falsy value `0`, for the C5 witness. -/
def fnZero : Int → Except Unit JSValue :=
  fun _ => Except.ok (JSValue.vNum 0)

/-- A function that always throws, for the C5 witness. -/
def fnThrow : Int → Except Unit JSValue :=
  fun _ => Except.error ()

/-- Claim C5 witness: at concrete functions and the argument `4`, a truthy
return `4` gives `some 4`, the falsy return `0` gives `none`, and a throw
gives `none` — the last two collapse identically. -/
theorem toOptional_truthy_falsy_throw_witness :
    toOptional fnEcho 4 = Option.some (JSValue.vNum 4) ∧
    toOptional fnZero 4 = Option.none ∧
    toOptional fnThrow 4 = Option.none :=
  ⟨(toOptional_truthy_falsy_throw fnEcho 4).1 (JSValue.vNum 4) rfl (by decide),
   (toOptional_truthy_falsy_throw fnZero 4).2.1 (JSValue.vNum 0) rfl
      (by decide),
   (toOptional_truthy_falsy_throw fnThrow 4).2.2 () rfl⟩

/-- Claim C6: for every function `fn`, `OptionalMap Option.none fn` is
`Except.ok Option.none` — the result holds for arbitrary `fn`, including
every function that would throw or have an effect, and carries no
exception, which is the pure-embedding statement that `fn` is never
invoked; and for every value `v` and pure function `g`,
`OptionalMap (some v)` of the lifted `g` is `ok (some (g v))`. -/
theorem OptionalMap_none_short_circuits_and_maps_some {a b e : Type} :
    (∀ fn : a → Except e b,
      OptionalMap Option.none fn = Except.ok Option.none)
  ∧ (∀ (v : a) (g : a → b),
      OptionalMap (Option.some v) (fun t => (Except.ok (g t) : Except e b)) =
        Except.ok (Option.some (g v))) :=
  ⟨fun _ => rfl, fun _ _ => rfl⟩

/-- Claim C7: if the mapping function throws on the contained value of a
`Some`, `OptionalMap` propagates the exception to its caller uncaught —
the result is that very `Except.error`, with no catching. -/
theorem OptionalMap_propagates_exception {a b e : Type}
    (fn : a → Except e b) (v : a) (err : e)
    (h : fn v = Except.error err) :
    OptionalMap (Option.some v) fn = Except.error err := by
  simp [OptionalMap, h, Except.map]

/-- A mapping function that always throws, for the C7 witness. -/
def fnMapThrow : Nat → Except String Nat :=
  fun _ => Except.error "boom"

/-- Claim C7 witness: mapping a throwing function over `some 3` yields the
uncaught error `"boom"`. -/
theorem OptionalMap_propagates_exception_witness :
    OptionalMap (Option.some 3) fnMapThrow = Except.error "boom" :=
  OptionalMap_propagates_exception fnMapThrow 3 "boom" rfl

/-- Claim C8: `unwrap` returns the contained value on every `Some` and
fails with exactly the message "Cannot unwrap None" on `None`;
`unwrapExpect` returns the contained value on every `Some` and fails with
exactly the caller-supplied message on `None`; for both, the error case
occurs if and only if the input is `None`, since the four equations cover
all inputs. -/
theorem unwrap_and_unwrapExpect_spec {a : Type} :
    (∀ v : a, unwrap (Option.some v) = Except.ok v)
  ∧ (unwrap (Option.none : Option a) = Except.error "Cannot unwrap None")
  ∧ (∀ (v : a) (message : String),
      unwrapExpect (Option.some v) message = Except.ok v)
  ∧ (∀ message : String,
      unwrapExpect (Option.none : Option a) message =
        Except.error message) :=
  ⟨fun _ => rfl, rfl, fun _ _ => rfl, fun _ => rfl⟩

/-- Claim C8 witness: the theorem evaluated at `some 7` and at `none` with
the message "msg". -/
theorem unwrap_and_unwrapExpect_spec_witness :
    unwrap (Option.some 7) = Except.ok 7 ∧
    unwrap (Option.none : Option Nat) = Except.error "Cannot unwrap None" ∧
    unwrapExpect (Option.some 7) "msg" = Except.ok 7 ∧
    unwrapExpect (Option.none : Option Nat) "msg" = Except.error "msg" :=
  ⟨(unwrap_and_unwrapExpect_spec).1 7,
   (unwrap_and_unwrapExpect_spec).2.1,
   (unwrap_and_unwrapExpect_spec).2.2.1 7 "msg",
   (unwrap_and_unwrapExpect_spec).2.2.2 "msg"⟩

/-- Claim C9: for every value `v` and fallback, `unwrapOr (some v)
fallback` is `v` and `unwrapOr none fallback` is `fallback`; `unwrapOr`
is a total function into `a`, so it never fails on any input. -/
theorem unwrapOr_spec {a : Type} :
    (∀ v fallback : a, unwrapOr (Option.some v) fallback = v)
  ∧ (∀ fallback : a,
      unwrapOr (Option.none : Option a) fallback = fallback) :=
  ⟨fun _ _ => rfl, fun _ => rfl⟩

/-- Claim C9 witness: the theorem evaluated at `some 2` and `none` with
fallback `9`. -/
theorem unwrapOr_spec_witness :
    unwrapOr (Option.some 2) 9 = 2 ∧
    unwrapOr (Option.none : Option Nat) 9 = 9 :=
  ⟨(unwrapOr_spec).1 2 9, (unwrapOr_spec).2 9⟩

/-- Claim C10: `OptionalCatch` returns `Some` of the return value when the
zero-argument function returns normally and `None` when it raises any
error, discarding it; `optionalResolve` settles to `Some` of the resolved
value on resolution and to `None` on rejection, for any reason. -/
theorem OptionalCatch_and_optionalResolve_spec {a e : Type}
    (fn : Unit → Except e a) :
    (∀ v, fn () = Except.ok v → OptionalCatch fn = Option.some v)
  ∧ (∀ err, fn () = Except.error err → OptionalCatch fn = Option.none)
  ∧ (∀ v : a, optionalResolve (Except.ok v : Except e a) = Option.some v)
  ∧ (∀ err : e,
      optionalResolve (Except.error err : Except e a) = Option.none) := by
  refine ⟨?_, ?_, fun _ => rfl, fun _ => rfl⟩
  · intro v h
    simp [OptionalCatch, h]
  · intro err h
    simp [OptionalCatch, h]

/-- A zero-argument function returning 42, for the C10 witness. -/
def fnRet42 : Unit → Except String Nat :=
  fun _ => Except.ok 42

/-- A zero-argument function that throws, for the C10 witness. -/
def fnRaise : Unit → Except String Nat :=
  fun _ => Except.error "x"

/-- Claim C10 witness: `OptionalCatch` of a function returning 42 gives
`some 42`, of a throwing function gives `none`; `optionalResolve` of a
promise resolving to 5 gives `some 5`, of one rejecting with "x" gives
`none`. -/
theorem OptionalCatch_and_optionalResolve_spec_witness :
    OptionalCatch fnRet42 = Option.some 42 ∧
    OptionalCatch fnRaise = Option.none ∧
    optionalResolve (Except.ok 5 : Except String Nat) = Option.some 5 ∧
    optionalResolve (Except.error "x" : Except String Nat) = Option.none :=
  ⟨(OptionalCatch_and_optionalResolve_spec fnRet42).1 42 rfl,
   (OptionalCatch_and_optionalResolve_spec fnRaise).2.1 "x" rfl,
   (OptionalCatch_and_optionalResolve_spec fnRet42).2.2.1 5,
   (OptionalCatch_and_optionalResolve_spec fnRaise).2.2.2 "x"⟩
